import Mathlib

/-!
Verification development for the MAX duplex-video-link repository.

The Python sources are shallowly embedded as pure Lean functions:

* `state_class.py` (class `ThreadSafeState`) becomes an association list
  of string keys; `None` returned by `lookupKV` models a raised `KeyError`
  in `__getitem__`, while `get` applies the supplied default.  The lock of
  the Python class makes each method call atomic; accordingly every
  embedded operation is a single pure function application, and the
  `with state.lock:` compound update of `receive_frames` is embedded as
  the single function `applyUpdate`.
* `network_utils.py` loop bodies become step functions over explicit loop
  state; wall-clock samples (`time.time()`) become explicit rational
  arguments; the external collaborators (cv2 image codec, the camera) are
  function parameters.
* msgpack (a third-party binary codec) is embedded at the boundary of its
  observable behaviour: a wire part either is a packed dictionary
  (`WirePart.meta`), in which case `unpackb` recovers exactly that dictionary,
  or it is some other byte buffer (`WirePart.img`, `WirePart.raw`), in which case
  `unpackb` raises and `unpack_metadata` returns the empty dictionary, as
  in the source.
-/

/-- Values storable in the shared state dictionary and in metadata
dictionaries: Python booleans, ints, floats (modelled as rationals),
decoded image frames (opaque handles), and `None`. -/
inductive Value where
  | vBool (b : Bool)
  | vInt (n : ℤ)
  | vFloat (q : ℚ)
  | vFrame (f : ℕ)
  | vNone
  deriving DecidableEq, Repr

namespace Value

/-- Python truthiness of a stored value (`if not x:`).  `None`, `False`
and numeric zero are falsy.  (A frame handle never reaches a boolean
context in the embedded code.) -/
def truthy : Value → Bool
  | vBool b => b
  | vInt n => decide (n ≠ 0)
  | vFloat q => decide (q ≠ 0)
  | vFrame _ => true
  | vNone => false

/-- Numeric reading of a stored value, used where the Python source does
float arithmetic on it (`current_time - last_frame_time`).  The loops only
ever store ints or floats in those fields; a non-numeric operand would
raise `TypeError` in Python and is outside the modelled alphabet. -/
def asQ : Value → ℚ
  | vInt n => (n : ℚ)
  | vFloat q => q
  | _ => 0

end Value

/-- First-match lookup in an association list; `none` when the key is
absent (dictionary miss). -/
def lookupKV {α : Type} : List (String × α) → String → Option α
  | [], _ => none
  | (k, v) :: rest, key => if k = key then some v else lookupKV rest key

/-- Dictionary assignment `d[key] = value`: replace the first binding of
the key, or append a fresh binding when the key is absent. -/
def setKV {α : Type} : List (String × α) → String → α → List (String × α)
  | [], key, value => [(key, value)]
  | (k, v) :: rest, key, value =>
      if k = key then (key, value) :: rest else (k, v) :: setKV rest key value

/-- Embedding of `state_class.ThreadSafeState`: a lock-guarded dictionary.
Each method of the Python class holds the lock for the whole call, so each
method is modelled as one pure function on the dictionary contents. -/
abbrev ThreadSafeState (α : Type) := List (String × α)

namespace ThreadSafeState

/-- Method `__getitem__` (`state[key]`, state_class.py lines 20 to 31):
`self._state[key]` raises `KeyError` for an absent key; the raised error
is modelled as the `none` result. -/
def getitem {α : Type} (st : ThreadSafeState α) (key : String) : Option α :=
  lookupKV st key

/-- Method `__setitem__` (`state[key] = value`, state_class.py lines 33
to 42). -/
def setitem {α : Type} (st : ThreadSafeState α) (key : String) (value : α) :
    ThreadSafeState α :=
  setKV st key value

/-- Method `get` with default (state_class.py lines 44 to 56):
`self._state.get(key, default)` never raises. -/
def get {α : Type} (st : ThreadSafeState α) (key : String) (default : α) : α :=
  (lookupKV st key).getD default

/-- Method `update` (state_class.py lines 58 to 66): atomic multi-field
write. -/
def update {α : Type} (st : ThreadSafeState α) (updates : List (String × α)) :
    ThreadSafeState α :=
  updates.foldl (fun s kv => setKV s kv.1 kv.2) st

/-- Method `get_all` (state_class.py lines 68 to 76): a copy of the whole
dictionary. -/
def get_all {α : Type} (st : ThreadSafeState α) : List (String × α) := st

end ThreadSafeState

/-- The application state dictionary instantiated at the value alphabet
used by `main.py` and the loops. -/
abbrev TSState := ThreadSafeState Value

theorem lookupKV_setKV_self {α : Type} (st : List (String × α)) (key : String) (v : α) :
    lookupKV (setKV st key v) key = some v := by
  induction st with
  | nil => simp [setKV, lookupKV]
  | cons hd tl ih =>
      by_cases h : hd.1 = key
      · simp [setKV, h, lookupKV]
      · simp [setKV, h, lookupKV, ih]

theorem lookupKV_setKV_ne {α : Type} (st : List (String × α)) (key q : String) (v : α)
    (h : q ≠ key) : lookupKV (setKV st key v) q = lookupKV st q := by
  have h2 : ¬ key = q := fun heq => h heq.symm
  induction st with
  | nil => simp [setKV, lookupKV, h2]
  | cons hd tl ih =>
      by_cases hk : hd.1 = key
      · simp [setKV, hk, lookupKV, h2]
      · by_cases hq : hd.1 = q
        · simp [setKV, hk, lookupKV, hq, h]
        · simp [setKV, hk, lookupKV, hq, ih]

/-! ## Wire model: message parts, msgpack boundary, codec -/

/-- One part of a multipart wire message.  `meta d` is a byte buffer that
msgpack-unpacks to the dictionary `d`; `img b` is an image byte buffer
(opaque to the metadata codec, identified by its bytes); `raw n` is any
other byte buffer.  Unpacking an `img` or `raw` part raises in msgpack. -/
inductive WirePart where
  | meta (d : List (String × Value))
  | img (b : List ℕ)
  | raw (n : ℕ)
  deriving DecidableEq, Repr

/-- msgpack `packb` applied to a metadata dictionary: produces the byte
buffer that unpacks back to exactly that dictionary. -/
def msgpack_packb (d : List (String × Value)) : WirePart := WirePart.meta d

/-- msgpack `unpackb`: recovers the packed dictionary, or raises (the
`none` result) on any buffer that is not a packed dictionary. -/
def msgpack_unpackb : WirePart → Option (List (String × Value))
  | WirePart.meta d => some d
  | _ => none

/-- Python `dict.get(key, default)` on a metadata dictionary. -/
def dictGet (d : List (String × Value)) (key : String) (default : Value) : Value :=
  (lookupKV d key).getD default

/-- Function `create_frame_metadata` (network_utils.py lines 89 to 102).
The `time.time()` sample taken inside the call is the explicit argument
`now`. -/
def create_frame_metadata (people_count : ℤ) (now : ℚ) : WirePart :=
  msgpack_packb [("people_count", Value.vInt people_count), ("timestamp", Value.vFloat now)]

/-- Function `publish_frame` (network_utils.py lines 105 to 123): sends
the two-part message `[metadata, frame_data]`; the embedding returns the
multipart payload put on the wire. -/
def publish_frame (metadata frame_data : WirePart) : List WirePart := [metadata, frame_data]

/-- Function `unpack_metadata` (network_utils.py lines 206 to 222):
msgpack unpack, returning the empty dictionary when unpacking raises. -/
def unpack_metadata (packed_metadata : WirePart) : List (String × Value) :=
  (msgpack_unpackb packed_metadata).getD []

/-- Outcome of one `subscriber.recv_multipart()` call: a delivered
multipart message, a plain receive timeout (`zmq.EAGAIN`), another ZMQ
socket error, or any other exception. -/
inductive RecvOutcome where
  | msg (parts : List WirePart)
  | timeoutEAGAIN
  | zmqError
  | otherException
  deriving DecidableEq, Repr

/-- Function `receive_message` (network_utils.py lines 175 to 203).  Every
failure alphabet element — timeout, ZMQ error, other exception, or a
message whose part count is not exactly two — is caught inside the
function and collapsed to the `(None, None)` result, modelled as `none`;
no exception escapes to the caller. -/
def receive_message : RecvOutcome → Option (WirePart × WirePart)
  | RecvOutcome.msg parts =>
      match parts with
      | [a, b] => some (a, b)
      | _ => none
  | RecvOutcome.timeoutEAGAIN => none
  | RecvOutcome.zmqError => none
  | RecvOutcome.otherException => none

/-! ## View-selector liveness check -/

/-- Function `update_view_state` (network_utils.py lines 249 to 268).
Reads `last_remote_frame_time` with default `0` and `display_local` with
default `True`; when the age of the last remote frame strictly exceeds 3
seconds and the current view is remote (`not display_local`), switches
`display_local` to `True` and reports the switch. -/
def update_view_state (state : TSState) (current_time : ℚ) : TSState × Bool :=
  let last_frame_time := ThreadSafeState.get state "last_remote_frame_time" (Value.vInt 0)
  if current_time - last_frame_time.asQ > 3 then
    if (ThreadSafeState.get state "display_local" (Value.vBool true)).truthy then
      (state, false)
    else
      (ThreadSafeState.setitem state "display_local" (Value.vBool true), true)
  else
    (state, false)

/-! ## Receive loop -/

/-- Per-thread state of `receive_frames` (network_utils.py lines 271 to
334): the consecutive-failure counter, the time of the last subscriber
reconnect, and the shared application state. -/
structure LoopSt where
  consecutive_failures : ℕ
  last_reconnect_time : ℚ
  st : TSState
  deriving DecidableEq, Repr

/-- Observable socket-management actions of one receive-loop iteration.
`recreatePublisher` exists in the alphabet only to state that the policy
never performs it: `recreate_subscriber` (network_utils.py lines 45 to 54)
closes and recreates the subscriber socket alone, and no code path ever
recreates the bound publisher. -/
inductive LoopEvent where
  | recreateSubscriber
  | recreatePublisher
  deriving DecidableEq, Repr

/-- Cooldown constant `reconnect_interval = 5` (network_utils.py line
275). -/
def reconnect_interval : ℚ := 5

/-- Failure branch of the receive loop (network_utils.py lines 283 to
299): increment the counter, run the liveness check, and recreate the
subscriber only when the counter strictly exceeds 10 and strictly more
than the cooldown has elapsed since the last reconnect. -/
def receive_failure_branch (now : ℚ) (s : LoopSt) : LoopSt × List LoopEvent :=
  let cf := s.consecutive_failures + 1
  let st1 := (update_view_state s.st now).1
  if cf > 10 ∧ now - s.last_reconnect_time > reconnect_interval then
    ({ consecutive_failures := 0, last_reconnect_time := now, st := st1 },
      [LoopEvent.recreateSubscriber])
  else
    ({ consecutive_failures := cf, last_reconnect_time := s.last_reconnect_time, st := st1 }, [])

/-- The `with state.lock:` compound update of the receive loop
(network_utils.py lines 313 to 322): the four fields written together in
one critical section. -/
structure RemoteUpdate where
  frame : ℕ
  count : Value
  time : ℚ
  deriving DecidableEq, Repr

/-- Body of the critical section (network_utils.py lines 314 to 322):
write `remote_frame`, `remote_num_people`, `last_remote_frame_time` and
`display_local` while holding the lock, as one atomic step. -/
def applyUpdate (u : RemoteUpdate) (st : TSState) : TSState :=
  ThreadSafeState.setitem
    (ThreadSafeState.setitem
      (ThreadSafeState.setitem
        (ThreadSafeState.setitem st "remote_frame" (Value.vFrame u.frame))
        "remote_num_people" u.count)
      "last_remote_frame_time" (Value.vFloat u.time))
    "display_local" (Value.vBool false)

/-- Success branch of the receive loop (network_utils.py lines 301 to
322): reset the failure counter, unpack metadata (default people count 0),
decode the frame via the external image codec `dec`, and on success apply
the atomic four-field update with the `time.time()` sample `now`. -/
def receive_success_branch (dec : WirePart → Option ℕ) (packed_metadata frame_data : WirePart)
    (now : ℚ) (s : LoopSt) : LoopSt × List LoopEvent :=
  let metadata := unpack_metadata packed_metadata
  let remote_people_count := dictGet metadata "people_count" (Value.vInt 0)
  match dec frame_data with
  | none =>
      ({ consecutive_failures := 0, last_reconnect_time := s.last_reconnect_time, st := s.st }, [])
  | some frame =>
      ({ consecutive_failures := 0, last_reconnect_time := s.last_reconnect_time,
         st := applyUpdate { frame := frame, count := remote_people_count, time := now } s.st }, [])

/-- One iteration of the `receive_frames` while-loop body (network_utils.py
lines 278 to 322).  `inc` is what `recv_multipart` did this iteration;
`now` is the single `time.time()` sample the executed branch takes; `dec`
is the external `cv2.imdecode` collaborator (`decode_frame`, lines 225 to
246, which catches its own exceptions). -/
def receive_frames_step (dec : WirePart → Option ℕ) (inc : RecvOutcome) (now : ℚ)
    (s : LoopSt) : LoopSt × List LoopEvent :=
  match receive_message inc with
  | none => receive_failure_branch now s
  | some (packed_metadata, frame_data) =>
      receive_success_branch dec packed_metadata frame_data now s

/-- A finite run of receive-loop iterations: each element pairs the
receive outcome with the wall-clock sample of that iteration.  Returns the
final loop state and the concatenated event trace. -/
def runSteps (dec : WirePart → Option ℕ) (s : LoopSt) :
    List (RecvOutcome × ℚ) → LoopSt × List LoopEvent
  | [] => (s, [])
  | (inc, t) :: rest =>
      let r1 := receive_frames_step dec inc t s
      let r2 := runSteps dec r1.1 rest
      (r2.1, r1.2 ++ r2.2)

/-! ## Send loop -/

/-- Events of one send-loop iteration, in the order the source performs
them (network_utils.py lines 131 to 169): capture, people-count read,
the `local_num_people` write into SharedState, frame encoding, metadata
creation, publishing, and the three kinds of sleep. -/
inductive SendEvent where
  | evCapture
  | evSleepHalf
  | evGetCount
  | evWriteLocalCount
  | evEncode
  | evCreateMetadata
  | evPublish
  | evSleepFrame
  | evSleepOneSec
  deriving DecidableEq, Repr

/-- Outcome of the capture collaborator in one send-loop iteration:
either no frame (`camera.capture_array()` returned `None`) or a raw frame
handle together with the people count derived from the camera metadata. -/
inductive CaptureResult where
  | noFrame
  | frame (f : ℕ) (count : ℤ)
  deriving DecidableEq, Repr

/-- Input alphabet of one send-loop iteration: a capture outcome, or an
exception raised somewhere in the body (caught by the `except` clause at
network_utils.py lines 167 to 169). -/
inductive SendIterInput where
  | capture (r : CaptureResult)
  | bodyException
  deriving DecidableEq, Repr

/-- One iteration of the `send_frames` while-loop body (network_utils.py
lines 131 to 169).  `enc` is the external `cv2.imencode` collaborator
(`encode_frame`, lines 60 to 86, which catches its own exceptions and
returns `None` on failure).  Returns the updated shared state and the
ordered event trace of the iteration:

* no frame: log, sleep 0.5 s, retry (line 135 to 138);
* frame: read the people count (lines 145 to 146), write
  `local_num_people` into SharedState (line 149), encode (line 152,
  `continue` without sleeping when encoding fails), create metadata
  (line 157), publish (line 160), then sleep 0.033 s (line 165);
* body exception: log and sleep 1 s without stopping the loop. -/
def send_frames_step (enc : ℕ → Option (List ℕ)) (inp : SendIterInput)
    (state : TSState) : TSState × List SendEvent :=
  match inp with
  | SendIterInput.bodyException => (state, [SendEvent.evSleepOneSec])
  | SendIterInput.capture CaptureResult.noFrame =>
      (state, [SendEvent.evCapture, SendEvent.evSleepHalf])
  | SendIterInput.capture (CaptureResult.frame f count) =>
      let state1 := ThreadSafeState.setitem state "local_num_people" (Value.vInt count)
      match enc f with
      | none =>
          (state1, [SendEvent.evCapture, SendEvent.evGetCount,
                    SendEvent.evWriteLocalCount, SendEvent.evEncode])
      | some _ =>
          (state1, [SendEvent.evCapture, SendEvent.evGetCount,
                    SendEvent.evWriteLocalCount, SendEvent.evEncode,
                    SendEvent.evCreateMetadata, SendEvent.evPublish,
                    SendEvent.evSleepFrame])

/-! ## Worker supervisor (main.py) -/

/-- Commands the supervisor in `main.py` enqueues for the LED worker
process, as the tagged dictionaries of `send_led_command` call sites. -/
inductive LedCommand where
  | set_all_active (active : Bool)
  | set_people_count (count : Value)
  | turn_off_all
  deriving DecidableEq, Repr

/-- Restart notification (`restart_info`, main.py lines 154 to 157):
the identity of the replacement process and the restart timestamp. -/
structure RestartInfo where
  new_pid : ℕ
  restart_time : ℚ
  deriving DecidableEq, Repr

/-- Bound of the LED command queue (`mp.Queue(maxsize=50)`, main.py line
248). -/
def QUEUE_MAX_LED : ℕ := 50

/-- Bound of the restart-notification queue (`mp.Queue(maxsize=5)`,
main.py line 249). -/
def QUEUE_MAX_RESTART : ℕ := 5

/-- Function `send_led_command` (main.py lines 180 to 186):
`put_nowait` on a bounded queue; when the queue is full the command is
dropped (the raised `Full` is caught) and the caller never blocks. -/
def send_led_command (led_queue : List LedCommand) (command : LedCommand) :
    List LedCommand :=
  if led_queue.length < QUEUE_MAX_LED then led_queue ++ [command] else led_queue

/-- The `restart_queue.put_nowait(restart_info)` call (main.py line 158),
with the exception on a full queue caught at lines 160 to 161. -/
def put_nowait_restart (q : List RestartInfo) (info : RestartInfo) : List RestartInfo :=
  if q.length < QUEUE_MAX_RESTART then q ++ [info] else q

/-- Result of one monitor iteration: the identities of the replacement
processes spawned (one entry per `mp.Process(...).start()`), and the two
queues after the iteration. -/
structure MonitorResult where
  spawned : List ℕ
  led_queue : List LedCommand
  restart_queue : List RestartInfo
  deriving DecidableEq, Repr

/-- One iteration of the `monitor_led_process` while-loop body (main.py
lines 139 to 175).  `alive` is `current_process.is_alive()`; `new_pid` is
the pid the OS would give a spawned replacement; `now` is the
`time.time()` sample of the restart notification.  When the worker is
dead the iteration spawns exactly one replacement, enqueues the restart
notification, then enqueues `set_all_active(True)` followed by
`set_people_count` with the current `local_num_people` read from
SharedState with default 0 (lines 163 to 170). -/
def monitor_led_process_step (alive : Bool) (new_pid : ℕ) (now : ℚ)
    (app_state : TSState) (led_queue : List LedCommand)
    (restart_queue : List RestartInfo) : MonitorResult :=
  if alive then
    { spawned := [], led_queue := led_queue, restart_queue := restart_queue }
  else
    let restart_q2 := put_nowait_restart restart_queue
      { new_pid := new_pid, restart_time := now }
    let led_q2 := send_led_command led_queue (LedCommand.set_all_active true)
    let current_people := ThreadSafeState.get app_state "local_num_people" (Value.vInt 0)
    let led_q3 := send_led_command led_q2 (LedCommand.set_people_count current_people)
    { spawned := [new_pid], led_queue := led_q3, restart_queue := restart_q2 }

/-! ## Observations for the atomicity property -/

/-- The four-field combination a reader holding the lock observes:
raw dictionary lookups of `remote_frame`, `remote_num_people`,
`last_remote_frame_time` and `display_local`. -/
def obs (st : TSState) : Option Value × Option Value × Option Value × Option Value :=
  (lookupKV st "remote_frame", lookupKV st "remote_num_people",
   lookupKV st "last_remote_frame_time", lookupKV st "display_local")

/-- The combination written together by one critical-section update. -/
def writtenObs (u : RemoteUpdate) : Option Value × Option Value × Option Value × Option Value :=
  (some (Value.vFrame u.frame), some u.count, some (Value.vFloat u.time),
   some (Value.vBool false))

/-- A history consisting only of the compound critical-section updates,
applied in order to an initial shared state.  This is a strict subset of
the program's locked writes to these fields: the receive loop's liveness
check (`update_view_state`) also writes `display_local` alone; the fuller
write alphabet is `WriteStep` with `applyWrites` below. -/
def applyAll (init : TSState) (l : List RemoteUpdate) : TSState :=
  l.foldl (fun s u => applyUpdate u s) init

theorem obs_applyUpdate (u : RemoteUpdate) (st : TSState) :
    obs (applyUpdate u st) = writtenObs u := by
  unfold obs applyUpdate writtenObs ThreadSafeState.setitem
  rw [lookupKV_setKV_ne _ _ _ _ (by decide), lookupKV_setKV_ne _ _ _ _ (by decide),
      lookupKV_setKV_ne _ _ _ _ (by decide), lookupKV_setKV_self,
      lookupKV_setKV_ne _ _ _ _ (by decide), lookupKV_setKV_ne _ _ _ _ (by decide),
      lookupKV_setKV_self, lookupKV_setKV_ne _ _ _ _ (by decide), lookupKV_setKV_self,
      lookupKV_setKV_self]

theorem lookup_applyUpdate_count (u : RemoteUpdate) (st : TSState) :
    lookupKV (applyUpdate u st) "remote_num_people" = some u.count := by
  unfold applyUpdate ThreadSafeState.setitem
  rw [lookupKV_setKV_ne _ _ _ _ (by decide), lookupKV_setKV_ne _ _ _ _ (by decide),
      lookupKV_setKV_self]

theorem lookup_applyUpdate_display (u : RemoteUpdate) (st : TSState) :
    lookupKV (applyUpdate u st) "display_local" = some (Value.vBool false) := by
  unfold applyUpdate ThreadSafeState.setitem
  rw [lookupKV_setKV_self]

/-- One locked write the receive loop performs on these fields: either
the compound four-field update of the success branch, or the liveness
check of the failure branch (`update_view_state`, network_utils.py lines
249 to 268), which writes `display_local` alone. -/
inductive WriteStep where
  | upd (u : RemoteUpdate)
  | liveness (t : ℚ)
  deriving DecidableEq, Repr

/-- Apply one write of the full alphabet to the shared dictionary. -/
def applyWrite (w : WriteStep) (st : TSState) : TSState :=
  match w with
  | WriteStep.upd u => applyUpdate u st
  | WriteStep.liveness t => (update_view_state st t).1

/-- A history over the receive loop's full locked write alphabet on these
fields, applied in order to an initial shared state; a lock-holding
reader observes the state after some prefix of such a history. -/
def applyWrites (init : TSState) (l : List WriteStep) : TSState :=
  l.foldl (fun s w => applyWrite w s) init

/-- The combination of the three fields that only the compound update
writes: `remote_frame`, `remote_num_people`, `last_remote_frame_time`. -/
def obs3 (st : TSState) : Option Value × Option Value × Option Value :=
  (lookupKV st "remote_frame", lookupKV st "remote_num_people",
   lookupKV st "last_remote_frame_time")

/-- The three-field combination written together by one update. -/
def writtenObs3 (u : RemoteUpdate) : Option Value × Option Value × Option Value :=
  (some (Value.vFrame u.frame), some u.count, some (Value.vFloat u.time))

theorem obs3_applyUpdate (u : RemoteUpdate) (st : TSState) :
    obs3 (applyUpdate u st) = writtenObs3 u := by
  unfold obs3 applyUpdate writtenObs3 ThreadSafeState.setitem
  rw [lookupKV_setKV_ne _ _ _ _ (by decide), lookupKV_setKV_ne _ _ _ _ (by decide),
      lookupKV_setKV_ne _ _ _ _ (by decide), lookupKV_setKV_self,
      lookupKV_setKV_ne _ _ _ _ (by decide), lookupKV_setKV_ne _ _ _ _ (by decide),
      lookupKV_setKV_self, lookupKV_setKV_ne _ _ _ _ (by decide), lookupKV_setKV_self]

theorem obs3_update_view_state (st : TSState) (t : ℚ) :
    obs3 (update_view_state st t).1 = obs3 st := by
  simp only [update_view_state]
  split_ifs
  · rfl
  · show obs3 (ThreadSafeState.setitem st "display_local" (Value.vBool true)) = obs3 st
    unfold obs3 ThreadSafeState.setitem
    rw [lookupKV_setKV_ne _ _ _ _ (by decide), lookupKV_setKV_ne _ _ _ _ (by decide),
        lookupKV_setKV_ne _ _ _ _ (by decide)]
  · rfl

/-! ## Concrete instances used by witnesses and counterexamples -/

/-- An image decoder that always fails, for concrete instantiations. -/
def decNone : WirePart → Option ℕ := fun _ => none

/-- An image decoder that always succeeds with frame handle 7. -/
def decOk : WirePart → Option ℕ := fun _ => some 7

/-- An image encoder that always succeeds, for concrete instantiations. -/
def encodeOk : ℕ → Option (List ℕ) := fun _ => some []

/-- A fresh receive-loop state: zero failures, last reconnect at time 0,
empty shared dictionary. -/
def exLoopSt : LoopSt :=
  { consecutive_failures := 0, last_reconnect_time := 0, st := [] }

/-- A shared state whose view is remote: `display_local = False` and a
last remote frame at time 100. -/
def exRemoteState : TSState :=
  [("last_remote_frame_time", Value.vFloat 100), ("display_local", Value.vBool false)]

/-- A shared state whose view is already local. -/
def exLocalState : TSState := [("display_local", Value.vBool true)]

/-! ## C1: view-selector freshness boundary -/

/-- C1: for a state with `last_remote_frame_time = T` and view `Remote`
(`display_local = False`), the liveness check `update_view_state` at time
`T + 3.001` switches the view to `Local` and reports the switch; at
`T + 2.999` it changes nothing; the comparison is strict, so at exactly
`T + 3` it also changes nothing; and on any state whose view is already
`Local` the check changes nothing. -/
theorem view_selector_freshness (st st2 : TSState) (T t2 : ℚ)
    (hT : lookupKV st "last_remote_frame_time" = some (Value.vFloat T))
    (hRemote : lookupKV st "display_local" = some (Value.vBool false))
    (hLocal : (ThreadSafeState.get st2 "display_local" (Value.vBool true)).truthy = true) :
    update_view_state st (T + 3001/1000)
      = (ThreadSafeState.setitem st "display_local" (Value.vBool true), true) ∧
    lookupKV (update_view_state st (T + 3001/1000)).1 "display_local"
      = some (Value.vBool true) ∧
    update_view_state st (T + 2999/1000) = (st, false) ∧
    update_view_state st (T + 3) = (st, false) ∧
    update_view_state st2 t2 = (st2, false) := by
  have hget : ThreadSafeState.get st "last_remote_frame_time" (Value.vInt 0)
      = Value.vFloat T := by
    simp [ThreadSafeState.get, hT]
  have hgetd : ThreadSafeState.get st "display_local" (Value.vBool true)
      = Value.vBool false := by
    simp [ThreadSafeState.get, hRemote]
  have harith1 : T + 3001/1000 - T > 3 := by
    have : T + 3001/1000 - T = 3001/1000 := by ring
    rw [this]; norm_num
  have harith2 : ¬ (T + 2999/1000 - T > 3) := by
    intro hcon
    have : T + 2999/1000 - T = 2999/1000 := by ring
    rw [this] at hcon
    norm_num at hcon
  have harith3 : ¬ (T + 3 - T > 3) := by
    intro hcon
    have : T + 3 - T = 3 := by ring
    rw [this] at hcon
    exact lt_irrefl _ hcon
  have h1 : update_view_state st (T + 3001/1000)
      = (ThreadSafeState.setitem st "display_local" (Value.vBool true), true) := by
    unfold update_view_state
    rw [hget]
    simp only [Value.asQ]
    rw [if_pos harith1, hgetd]
    simp [Value.truthy]
  have h3 : update_view_state st (T + 2999/1000) = (st, false) := by
    unfold update_view_state
    rw [hget]
    simp only [Value.asQ]
    rw [if_neg harith2]
  have h4 : update_view_state st (T + 3) = (st, false) := by
    unfold update_view_state
    rw [hget]
    simp only [Value.asQ]
    rw [if_neg harith3]
  have h5 : update_view_state st2 t2 = (st2, false) := by
    simp [update_view_state, hLocal]
  refine ⟨h1, ?_, h3, h4, h5⟩
  rw [h1]
  exact lookupKV_setKV_self st "display_local" (Value.vBool true)

/-- Witness for C1 at a concrete remote-view state with `T = 100` and a
concrete local-view state checked at time 7. -/
theorem view_selector_freshness_witness :
    update_view_state exRemoteState (100 + 3001/1000)
      = (ThreadSafeState.setitem exRemoteState "display_local" (Value.vBool true), true) ∧
    lookupKV (update_view_state exRemoteState (100 + 3001/1000)).1 "display_local"
      = some (Value.vBool true) ∧
    update_view_state exRemoteState (100 + 2999/1000) = (exRemoteState, false) ∧
    update_view_state exRemoteState (100 + 3) = (exRemoteState, false) ∧
    update_view_state exLocalState 7 = (exLocalState, false) :=
  view_selector_freshness exRemoteState exLocalState 100 7 (by decide) (by decide) (by decide)

theorem step_eq_failure (dec : WirePart → Option ℕ) (inc : RecvOutcome) (now : ℚ)
    (s : LoopSt) (h : receive_message inc = none) :
    receive_frames_step dec inc now s = receive_failure_branch now s := by
  unfold receive_frames_step
  rw [h]

theorem step_eq_success (dec : WirePart → Option ℕ) (inc : RecvOutcome) (now : ℚ)
    (s : LoopSt) (pm fd : WirePart) (h : receive_message inc = some (pm, fd)) :
    receive_frames_step dec inc now s = receive_success_branch dec pm fd now s := by
  unfold receive_frames_step
  rw [h]

theorem failure_branch_cf (now : ℚ) (s : LoopSt) :
    (receive_failure_branch now s).1.consecutive_failures =
      if s.consecutive_failures + 1 > 10 ∧ now - s.last_reconnect_time > reconnect_interval
      then 0 else s.consecutive_failures + 1 := by
  simp only [receive_failure_branch]
  split_ifs <;> rfl

theorem success_branch_cf (dec : WirePart → Option ℕ) (pm fd : WirePart) (now : ℚ)
    (s : LoopSt) :
    (receive_success_branch dec pm fd now s).1.consecutive_failures = 0 := by
  simp only [receive_success_branch]
  cases dec fd <;> rfl

/-! ## C2: failure counting of the reconnect policy -/

/-- C2 counterexample: from a fresh loop state with a zero counter, an
iteration whose receive outcome is a plain timeout (`zmq.EAGAIN`, the
bounded receive expired with no message) increments the
consecutive-failure counter from 0 to 1, contradicting the claim that
plain timeouts are not counted. -/
theorem timeout_counted_counterexample :
    exLoopSt.consecutive_failures = 0 ∧
    receive_message RecvOutcome.timeoutEAGAIN = none ∧
    (receive_frames_step decNone RecvOutcome.timeoutEAGAIN 0 exLoopSt).1.consecutive_failures
      = 1 := by
  refine ⟨rfl, rfl, by decide⟩

/-- C2 amended: the consecutive-failure counter increments on every
iteration in which `receive_message` yields the `(None, None)` failure
value — plain timeouts included, since the receive loop cannot
distinguish them from other failures — except that a triggered reconnect
resets it to 0; it resets to 0 on any successful receive. -/
theorem failure_counter_increment (dec : WirePart → Option ℕ) (inc : RecvOutcome)
    (now : ℚ) (s : LoopSt) :
    (receive_frames_step dec inc now s).1.consecutive_failures =
      match receive_message inc with
      | none =>
          if s.consecutive_failures + 1 > 10 ∧ now - s.last_reconnect_time > reconnect_interval
          then 0 else s.consecutive_failures + 1
      | some _ => 0 := by
  cases hrm : receive_message inc with
  | none =>
      rw [step_eq_failure dec inc now s hrm]
      exact failure_branch_cf now s
  | some p =>
      obtain ⟨pm, fd⟩ := p
      rw [step_eq_success dec inc now s pm fd hrm]
      exact success_branch_cf dec pm fd now s

/-! ## C4: atomic four-field update -/

/-- C4 counterexample: in the receive loop itself, one compound update
(frame 1, count 2, at time 0) followed by the loop's own liveness check
at time 4 — a locked write of `display_local` alone — leaves a state
whose four-field combination pairs the update's `remote_frame`,
`remote_num_people` and `last_remote_frame_time` with
`display_local = True`: a combination that differs from the one written
together by the only update in the history and from the initial
combination, so a lock-holding reader can observe a four-field
combination never written together by one update. -/
theorem atomicity_liveness_counterexample :
    obs (applyWrites [] [WriteStep.upd { frame := 1, count := Value.vInt 2, time := 0 },
        WriteStep.liveness 4])
      = (some (Value.vFrame 1), some (Value.vInt 2), some (Value.vFloat 0),
         some (Value.vBool true)) ∧
    obs (applyWrites [] [WriteStep.upd { frame := 1, count := Value.vInt 2, time := 0 },
        WriteStep.liveness 4])
      ≠ writtenObs { frame := 1, count := Value.vInt 2, time := 0 } ∧
    obs (applyWrites [] [WriteStep.upd { frame := 1, count := Value.vInt 2, time := 0 },
        WriteStep.liveness 4])
      ≠ obs ([] : TSState) := by
  have hget : ThreadSafeState.get
      (applyUpdate { frame := 1, count := Value.vInt 2, time := 0 } ([] : TSState))
      "last_remote_frame_time" (Value.vInt 0) = Value.vFloat 0 := by
    decide
  have hgetd : ThreadSafeState.get
      (applyUpdate { frame := 1, count := Value.vInt 2, time := 0 } ([] : TSState))
      "display_local" (Value.vBool true) = Value.vBool false := by
    decide
  have harith : (4 : ℚ) - 0 > 3 := by norm_num
  have hupd : update_view_state
      (applyUpdate { frame := 1, count := Value.vInt 2, time := 0 } ([] : TSState)) 4
      = (ThreadSafeState.setitem
          (applyUpdate { frame := 1, count := Value.vInt 2, time := 0 } ([] : TSState))
          "display_local" (Value.vBool true), true) := by
    simp only [update_view_state]
    rw [hget]
    simp only [Value.asQ]
    rw [if_pos harith, hgetd]
    simp [Value.truthy]
  have hw : applyWrites [] [WriteStep.upd { frame := 1, count := Value.vInt 2, time := 0 },
      WriteStep.liveness 4]
      = ThreadSafeState.setitem
          (applyUpdate { frame := 1, count := Value.vInt 2, time := 0 } ([] : TSState))
          "display_local" (Value.vBool true) := by
    show (update_view_state
      (applyUpdate { frame := 1, count := Value.vInt 2, time := 0 } ([] : TSState)) 4).1 = _
    rw [hupd]
  rw [hw]
  refine ⟨by decide, by decide, by decide⟩

/-- C4 amended: every successful receive writes the four fields inside a
single critical section, so for histories consisting only of these
compound updates a lock-holding reader observes either the initial
four-field combination or one written together by a single update.  The
receive loop has one further locked writer of these fields — the
liveness check, which sets `display_local` alone — and under the full
write alphabet (compound updates interleaved with liveness checks) the
guarantee that holds for all interleavings is over the three fields only
the compound update writes: the observed `remote_frame` /
`remote_num_people` / `last_remote_frame_time` combination is always the
initial one or one written together by a single update. -/
theorem atomic_update_histories (init : TSState) (l : List WriteStep)
    (l2 : List RemoteUpdate) :
    (obs3 (applyWrites init l) = obs3 init ∨
      ∃ u, WriteStep.upd u ∈ l ∧ obs3 (applyWrites init l) = writtenObs3 u) ∧
    (obs (applyAll init l2) = obs init ∨
      ∃ u ∈ l2, obs (applyAll init l2) = writtenObs u) := by
  constructor
  · induction l generalizing init with
    | nil => left; rfl
    | cons w tl ih =>
        have hstep : applyWrites init (w :: tl) = applyWrites (applyWrite w init) tl := rfl
        rw [hstep]
        rcases ih (applyWrite w init) with h | ⟨u, hu, hobs⟩
        · cases w with
          | upd u =>
              right
              refine ⟨u, List.mem_cons_self _ _, ?_⟩
              rw [h]
              exact obs3_applyUpdate u init
          | liveness t =>
              left
              rw [h]
              exact obs3_update_view_state init t
        · right
          exact ⟨u, List.mem_cons_of_mem _ hu, hobs⟩
  · induction l2 generalizing init with
    | nil => left; rfl
    | cons u tl ih =>
        have hstep : applyAll init (u :: tl) = applyAll (applyUpdate u init) tl := rfl
        rw [hstep]
        rcases ih (applyUpdate u init) with h | ⟨v, hv, hobs⟩
        · right
          exact ⟨u, List.mem_cons_self u tl, by rw [h, obs_applyUpdate]⟩
        · right
          exact ⟨v, List.mem_cons_of_mem _ hv, hobs⟩

/-! ## C5: codec round trip -/

/-- C5: for every people count and image byte buffer, the two-part
message built by `create_frame_metadata` and `publish_frame` is received
with its image payload byte-identical to the published one, unpacking the
metadata yields the same people count back, and the decoded timestamp is
exactly the clock sample taken inside the encode call, hence lies within
the encode call execution window `[t0, t1]`. -/
theorem codec_round_trip (count : ℤ) (img : List ℕ) (t t0 t1 : ℚ)
    (h0 : t0 ≤ t) (h1 : t ≤ t1) :
    receive_message
        (RecvOutcome.msg (publish_frame (create_frame_metadata count t) (WirePart.img img)))
      = some (create_frame_metadata count t, WirePart.img img) ∧
    dictGet (unpack_metadata (create_frame_metadata count t)) "people_count" (Value.vInt 0)
      = Value.vInt count ∧
    dictGet (unpack_metadata (create_frame_metadata count t)) "timestamp" (Value.vFloat 0)
      = Value.vFloat t ∧
    t0 ≤ (dictGet (unpack_metadata (create_frame_metadata count t)) "timestamp"
            (Value.vFloat 0)).asQ ∧
    (dictGet (unpack_metadata (create_frame_metadata count t)) "timestamp"
        (Value.vFloat 0)).asQ ≤ t1 := by
  have hcount : dictGet (unpack_metadata (create_frame_metadata count t)) "people_count"
      (Value.vInt 0) = Value.vInt count := by
    simp [dictGet, unpack_metadata, create_frame_metadata, msgpack_packb, msgpack_unpackb,
      lookupKV]
  have hts : dictGet (unpack_metadata (create_frame_metadata count t)) "timestamp"
      (Value.vFloat 0) = Value.vFloat t := by
    simp [dictGet, unpack_metadata, create_frame_metadata, msgpack_packb, msgpack_unpackb,
      lookupKV]
  refine ⟨rfl, hcount, hts, ?_, ?_⟩
  · rw [hts]; exact h0
  · rw [hts]; exact h1

/-- Witness for C5 at count 3, payload `[1, 2, 3]`, encode-time clock
sample 10 inside the window `[9, 11]`. -/
theorem codec_round_trip_witness :
    receive_message
        (RecvOutcome.msg (publish_frame (create_frame_metadata 3 10) (WirePart.img [1, 2, 3])))
      = some (create_frame_metadata 3 10, WirePart.img [1, 2, 3]) ∧
    dictGet (unpack_metadata (create_frame_metadata 3 10)) "people_count" (Value.vInt 0)
      = Value.vInt 3 ∧
    dictGet (unpack_metadata (create_frame_metadata 3 10)) "timestamp" (Value.vFloat 0)
      = Value.vFloat 10 ∧
    (9 : ℚ) ≤ (dictGet (unpack_metadata (create_frame_metadata 3 10)) "timestamp"
            (Value.vFloat 0)).asQ ∧
    (dictGet (unpack_metadata (create_frame_metadata 3 10)) "timestamp"
        (Value.vFloat 0)).asQ ≤ 11 :=
  codec_round_trip 3 [1, 2, 3] 10 9 11 (by norm_num) (by norm_num)

/-! ## C6: malformed-message handling -/

/-- C6: receiving a message whose structure is not exactly two parts
(zero, one, three or more) yields the `(None, None)` failure value —
every exception path inside `receive_message` is caught, so nothing
propagates to the caller — and the receive loop treats the iteration
identically to a plain timeout (no message available). -/
theorem malformed_message_handling (parts : List WirePart) (dec : WirePart → Option ℕ)
    (now : ℚ) (s : LoopSt) (h : parts.length ≠ 2) :
    receive_message (RecvOutcome.msg parts) = none ∧
    receive_frames_step dec (RecvOutcome.msg parts) now s
      = receive_frames_step dec RecvOutcome.timeoutEAGAIN now s := by
  have hm : receive_message (RecvOutcome.msg parts) = none := by
    match parts with
    | [] => rfl
    | [a] => rfl
    | [a, b] => exact absurd rfl h
    | a :: b :: c :: rest => rfl
  have h2 : receive_frames_step dec (RecvOutcome.msg parts) now s
      = receive_failure_branch now s := by
    unfold receive_frames_step
    rw [hm]
  exact ⟨hm, h2⟩

/-- Witness for C6: a concrete three-part message. -/
theorem malformed_message_handling_witness :
    receive_message (RecvOutcome.msg [WirePart.raw 0, WirePart.raw 1, WirePart.raw 2]) = none ∧
    receive_frames_step decNone (RecvOutcome.msg [WirePart.raw 0, WirePart.raw 1, WirePart.raw 2])
        0 exLoopSt
      = receive_frames_step decNone RecvOutcome.timeoutEAGAIN 0 exLoopSt :=
  malformed_message_handling [WirePart.raw 0, WirePart.raw 1, WirePart.raw 2] decNone 0 exLoopSt
    (by decide)

/-! ## Run lemmas for the reconnect policy -/

theorem runSteps_append (dec : WirePart → Option ℕ) (s : LoopSt)
    (l1 l2 : List (RecvOutcome × ℚ)) :
    runSteps dec s (l1 ++ l2)
      = ((runSteps dec (runSteps dec s l1).1 l2).1,
         (runSteps dec s l1).2 ++ (runSteps dec (runSteps dec s l1).1 l2).2) := by
  induction l1 generalizing s with
  | nil => simp [runSteps]
  | cons hd tl ih =>
      obtain ⟨inc, t⟩ := hd
      simp only [List.cons_append, runSteps, List.append_eq, ih, List.append_assoc]

theorem run_timeouts_low (dec : WirePart → Option ℕ) (ts : List ℚ) (s : LoopSt)
    (h : s.consecutive_failures + ts.length ≤ 10) :
    (runSteps dec s (ts.map (fun t => (RecvOutcome.timeoutEAGAIN, t)))).1.consecutive_failures
        = s.consecutive_failures + ts.length ∧
    (runSteps dec s (ts.map (fun t => (RecvOutcome.timeoutEAGAIN, t)))).1.last_reconnect_time
        = s.last_reconnect_time ∧
    (runSteps dec s (ts.map (fun t => (RecvOutcome.timeoutEAGAIN, t)))).2 = [] := by
  induction ts generalizing s with
  | nil => simp [runSteps]
  | cons t ts ih =>
      have hno : ¬ (s.consecutive_failures + 1 > 10 ∧
          t - s.last_reconnect_time > reconnect_interval) := by
        rintro ⟨h1, _⟩
        simp only [List.length_cons] at h
        omega
      have hstep : receive_frames_step dec RecvOutcome.timeoutEAGAIN t s
          = ({ consecutive_failures := s.consecutive_failures + 1,
               last_reconnect_time := s.last_reconnect_time,
               st := (update_view_state s.st t).1 }, []) := by
        rw [step_eq_failure dec RecvOutcome.timeoutEAGAIN t s rfl]
        simp only [receive_failure_branch]
        rw [if_neg hno]
      have hlen : s.consecutive_failures + 1 + ts.length ≤ 10 := by
        simp only [List.length_cons] at h
        omega
      have ihs := ih { consecutive_failures := s.consecutive_failures + 1,
                       last_reconnect_time := s.last_reconnect_time,
                       st := (update_view_state s.st t).1 } hlen
      simp only [List.map_cons, runSteps, hstep] at *
      refine ⟨?_, ?_, ?_⟩
      · rw [ihs.1]
        simp only [List.length_cons]
        omega
      · exact ihs.2.1
      · simp [ihs.2.2]

theorem step_events_sub (dec : WirePart → Option ℕ) (inc : RecvOutcome) (now : ℚ)
    (s : LoopSt) :
    (receive_frames_step dec inc now s).2 = []
      ∨ (receive_frames_step dec inc now s).2 = [LoopEvent.recreateSubscriber] := by
  cases hrm : receive_message inc with
  | none =>
      rw [step_eq_failure dec inc now s hrm]
      simp only [receive_failure_branch]
      split_ifs
      · right; rfl
      · left; rfl
  | some p =>
      obtain ⟨pm, fd⟩ := p
      rw [step_eq_success dec inc now s pm fd hrm]
      simp only [receive_success_branch]
      cases dec fd
      · left; rfl
      · left; rfl

theorem runSteps_no_publisher (dec : WirePart → Option ℕ) (s : LoopSt)
    (inps : List (RecvOutcome × ℚ)) :
    LoopEvent.recreatePublisher ∉ (runSteps dec s inps).2 := by
  induction inps generalizing s with
  | nil => simp [runSteps]
  | cons hd tl ih =>
      obtain ⟨inc, t⟩ := hd
      simp only [runSteps, List.mem_append]
      rintro (h1 | h2)
      · rcases step_events_sub dec inc t s with he | he <;> rw [he] at h1 <;> simp at h1
      · exact ih _ h2

theorem runSteps_single (dec : WirePart → Option ℕ) (s : LoopSt) (inc : RecvOutcome)
    (t : ℚ) :
    runSteps dec s [(inc, t)] = receive_frames_step dec inc t s := by
  simp [runSteps]

theorem failure_branch_eq (now : ℚ) (s : LoopSt) :
    receive_failure_branch now s =
      if s.consecutive_failures + 1 > 10 ∧ now - s.last_reconnect_time > reconnect_interval
      then
        ({ consecutive_failures := 0, last_reconnect_time := now,
           st := (update_view_state s.st now).1 }, [LoopEvent.recreateSubscriber])
      else
        ({ consecutive_failures := s.consecutive_failures + 1,
           last_reconnect_time := s.last_reconnect_time,
           st := (update_view_state s.st now).1 }, []) := by
  simp only [receive_failure_branch]

/-! ## C3: reconnect threshold and cooldown -/

/-- C3 counterexample: from a zero failure counter with the last
reconnect at time 0, a run of 11 consecutive failed receives all checked
at time 5 — so that exactly the 5-second cooldown has elapsed ("at least
the cooldown") — triggers no subscriber recreation at all, because the
code requires the elapsed time to strictly exceed 5 seconds. -/
theorem reconnect_cooldown_counterexample :
    ((5 : ℚ) - 0 ≥ 5) ∧
    exLoopSt.consecutive_failures = 0 ∧
    exLoopSt.last_reconnect_time = 0 ∧
    (runSteps decNone exLoopSt
        (List.replicate 11 (RecvOutcome.timeoutEAGAIN, (5 : ℚ)))).2 = [] := by
  refine ⟨by norm_num, rfl, rfl, ?_⟩
  have hsplit : List.replicate 11 (RecvOutcome.timeoutEAGAIN, (5 : ℚ))
      = (List.replicate 10 (5 : ℚ)).map (fun t => (RecvOutcome.timeoutEAGAIN, t))
        ++ [(RecvOutcome.timeoutEAGAIN, (5 : ℚ))] := by
    decide
  obtain ⟨hcf, hlrt, hev⟩ := run_timeouts_low decNone (List.replicate 10 (5 : ℚ)) exLoopSt
    (by simp [exLoopSt])
  rw [hsplit, runSteps_append, hev, runSteps_single,
      step_eq_failure decNone RecvOutcome.timeoutEAGAIN 5 _ rfl, failure_branch_eq]
  have hcond : ¬ ((runSteps decNone exLoopSt
      ((List.replicate 10 (5 : ℚ)).map (fun t => (RecvOutcome.timeoutEAGAIN, t)))).1.consecutive_failures
        + 1 > 10 ∧
      (5 : ℚ) - (runSteps decNone exLoopSt
      ((List.replicate 10 (5 : ℚ)).map (fun t => (RecvOutcome.timeoutEAGAIN, t)))).1.last_reconnect_time
        > reconnect_interval) := by
    rintro ⟨-, h2⟩
    rw [hlrt] at h2
    simp only [exLoopSt] at h2
    norm_num [reconnect_interval] at h2
  rw [if_neg hcond]
  simp

/-- C3 amended: starting from a zero failure counter, a run of exactly 11
consecutive failed receives with no intervening success triggers exactly
one recreation of the subscriber socket precisely when strictly more than
the 5-second cooldown has elapsed since the last reconnect at the 11th
check (at exactly 5 seconds, or less, it triggers none), after which the
counter is reset to 0 and the last-reconnect time is set to the
recreation time; a run of 10 or fewer consecutive failures triggers no
recreation; and no receive-loop run ever recreates the publish socket. -/
theorem reconnect_threshold_cooldown (dec : WirePart → Option ℕ) (st0 : TSState)
    (lrt tlast : ℚ) (ts ts2 : List ℚ) (s : LoopSt)
    (inps : List (RecvOutcome × ℚ)) (hlen : ts.length = 10) (hlen2 : ts2.length ≤ 10) :
    (runSteps dec { consecutive_failures := 0, last_reconnect_time := lrt, st := st0 }
        ((ts ++ [tlast]).map (fun t => (RecvOutcome.timeoutEAGAIN, t)))).2
      = (if tlast - lrt > reconnect_interval then [LoopEvent.recreateSubscriber] else []) ∧
    (runSteps dec { consecutive_failures := 0, last_reconnect_time := lrt, st := st0 }
        ((ts ++ [tlast]).map (fun t => (RecvOutcome.timeoutEAGAIN, t)))).1.consecutive_failures
      = (if tlast - lrt > reconnect_interval then 0 else 11) ∧
    (runSteps dec { consecutive_failures := 0, last_reconnect_time := lrt, st := st0 }
        ((ts ++ [tlast]).map (fun t => (RecvOutcome.timeoutEAGAIN, t)))).1.last_reconnect_time
      = (if tlast - lrt > reconnect_interval then tlast else lrt) ∧
    (runSteps dec { consecutive_failures := 0, last_reconnect_time := lrt, st := st0 }
        (ts2.map (fun t => (RecvOutcome.timeoutEAGAIN, t)))).2 = [] ∧
    LoopEvent.recreatePublisher ∉ (runSteps dec s inps).2 := by
  have hmap : (ts ++ [tlast]).map (fun t => (RecvOutcome.timeoutEAGAIN, t))
      = ts.map (fun t => (RecvOutcome.timeoutEAGAIN, t))
        ++ [(RecvOutcome.timeoutEAGAIN, tlast)] := by
    simp
  obtain ⟨hcf, hlrt2, hev⟩ := run_timeouts_low dec ts
    { consecutive_failures := 0, last_reconnect_time := lrt, st := st0 } (by simp [hlen])
  have hcf10 : (runSteps dec
      { consecutive_failures := 0, last_reconnect_time := lrt, st := st0 }
      (ts.map (fun t => (RecvOutcome.timeoutEAGAIN, t)))).1.consecutive_failures = 10 := by
    rw [hcf, hlen]
  have hfull : runSteps dec
      { consecutive_failures := 0, last_reconnect_time := lrt, st := st0 }
      ((ts ++ [tlast]).map (fun t => (RecvOutcome.timeoutEAGAIN, t)))
    = (if tlast - lrt > reconnect_interval then
        ({ consecutive_failures := 0, last_reconnect_time := tlast,
           st := (update_view_state (runSteps dec
             { consecutive_failures := 0, last_reconnect_time := lrt, st := st0 }
             (ts.map (fun t => (RecvOutcome.timeoutEAGAIN, t)))).1.st tlast).1 },
         [LoopEvent.recreateSubscriber])
      else
        ({ consecutive_failures := 11, last_reconnect_time := lrt,
           st := (update_view_state (runSteps dec
             { consecutive_failures := 0, last_reconnect_time := lrt, st := st0 }
             (ts.map (fun t => (RecvOutcome.timeoutEAGAIN, t)))).1.st tlast).1 }, [])) := by
    rw [hmap, runSteps_append, hev, runSteps_single,
        step_eq_failure dec RecvOutcome.timeoutEAGAIN tlast _ rfl, failure_branch_eq,
        hcf10, hlrt2]
    by_cases hc : tlast - lrt > reconnect_interval
    · rw [if_pos ⟨by omega, hc⟩, if_pos hc]
      simp
    · rw [if_neg (fun hand => hc hand.2), if_neg hc]
      simp
  refine ⟨?_, ?_, ?_,
    (run_timeouts_low dec ts2
      { consecutive_failures := 0, last_reconnect_time := lrt, st := st0 }
      (by simpa using hlen2)).2.2,
    runSteps_no_publisher dec s inps⟩
  · rw [hfull]
    split_ifs <;> rfl
  · rw [hfull]
    split_ifs <;> rfl
  · rw [hfull]
    split_ifs <;> rfl

/-- Witness for C3: ten failures at time 1 then an 11th at time 100, with
the last reconnect at time 0 (cooldown long elapsed), and an empty run for
the remaining conjuncts. -/
theorem reconnect_threshold_cooldown_witness :
    (runSteps decNone { consecutive_failures := 0, last_reconnect_time := 0, st := [] }
        ((List.replicate 10 (1 : ℚ) ++ [100]).map (fun t => (RecvOutcome.timeoutEAGAIN, t)))).2
      = (if (100 : ℚ) - 0 > reconnect_interval then [LoopEvent.recreateSubscriber] else []) ∧
    (runSteps decNone { consecutive_failures := 0, last_reconnect_time := 0, st := [] }
        ((List.replicate 10 (1 : ℚ) ++ [100]).map (fun t => (RecvOutcome.timeoutEAGAIN, t)))).1.consecutive_failures
      = (if (100 : ℚ) - 0 > reconnect_interval then 0 else 11) ∧
    (runSteps decNone { consecutive_failures := 0, last_reconnect_time := 0, st := [] }
        ((List.replicate 10 (1 : ℚ) ++ [100]).map (fun t => (RecvOutcome.timeoutEAGAIN, t)))).1.last_reconnect_time
      = (if (100 : ℚ) - 0 > reconnect_interval then (100 : ℚ) else 0) ∧
    (runSteps decNone { consecutive_failures := 0, last_reconnect_time := 0, st := [] }
        (([] : List ℚ).map (fun t => (RecvOutcome.timeoutEAGAIN, t)))).2 = [] ∧
    LoopEvent.recreatePublisher ∉ (runSteps decNone exLoopSt []).2 :=
  reconnect_threshold_cooldown decNone [] 0 100 (List.replicate 10 (1 : ℚ)) [] exLoopSt []
    (by simp) (by simp)

/-! ## C7: worker restart replay -/

/-- C7: whenever the monitoring loop finds the worker process not alive
(and the bounded queues have room, so nothing is dropped), it spawns
exactly one replacement, enqueues one restart notification carrying the
new process identity and the restart timestamp, and then enqueues — in
this order — `set_all_active(True)` followed by `set_people_count` with
the current `local_num_people` value read from SharedState (default 0). -/
theorem worker_restart_replay (app_state : TSState) (led_queue : List LedCommand)
    (restart_queue : List RestartInfo) (new_pid : ℕ) (now : ℚ)
    (hled : led_queue.length + 1 < QUEUE_MAX_LED)
    (hrst : restart_queue.length < QUEUE_MAX_RESTART) :
    monitor_led_process_step false new_pid now app_state led_queue restart_queue
      = { spawned := [new_pid],
          led_queue := led_queue
            ++ [LedCommand.set_all_active true,
                LedCommand.set_people_count
                  (ThreadSafeState.get app_state "local_num_people" (Value.vInt 0))],
          restart_queue := restart_queue ++ [{ new_pid := new_pid, restart_time := now }] } := by
  have hled1 : led_queue.length < QUEUE_MAX_LED := by omega
  have hled2 : (led_queue ++ [LedCommand.set_all_active true]).length < QUEUE_MAX_LED := by
    simpa using hled
  simp only [monitor_led_process_step, Bool.false_eq_true, if_false, put_nowait_restart,
    send_led_command, if_pos hrst, if_pos hled1, if_pos hled2, List.append_assoc,
    List.cons_append, List.nil_append]

/-- Witness for C7: worker death at pid 123, time 42, with
`local_num_people = 5` in SharedState and empty queues: the replacement
receives `set_all_active(True)` then `set_people_count(5)`. -/
theorem worker_restart_replay_witness :
    monitor_led_process_step false 123 42 [("local_num_people", Value.vInt 5)] [] []
      = { spawned := [123],
          led_queue := []
            ++ [LedCommand.set_all_active true,
                LedCommand.set_people_count
                  (ThreadSafeState.get [("local_num_people", Value.vInt 5)]
                    "local_num_people" (Value.vInt 0))],
          restart_queue := [] ++ [{ new_pid := 123, restart_time := 42 }] } :=
  worker_restart_replay [("local_num_people", Value.vInt 5)] [] [] 123 42
    (by decide) (by decide)

/-! ## C8: send-loop iteration order -/

/-- C8 counterexample: in a concrete successful send-loop iteration the
`local_num_people` write into SharedState happens immediately after the
people count is read and before the frame is encoded — not after
publishing as the claim orders the steps.  The trace below shows
`evWriteLocalCount` preceding `evEncode` and `evPublish`, and differs from
the claimed order capture, count, encode, metadata, publish, write,
sleep. -/
theorem send_loop_write_before_publish :
    (send_frames_step encodeOk (SendIterInput.capture (CaptureResult.frame 0 5)) []).2
      = [SendEvent.evCapture, SendEvent.evGetCount, SendEvent.evWriteLocalCount,
         SendEvent.evEncode, SendEvent.evCreateMetadata, SendEvent.evPublish,
         SendEvent.evSleepFrame] ∧
    (send_frames_step encodeOk (SendIterInput.capture (CaptureResult.frame 0 5)) []).2
      ≠ [SendEvent.evCapture, SendEvent.evGetCount, SendEvent.evEncode,
         SendEvent.evCreateMetadata, SendEvent.evPublish, SendEvent.evWriteLocalCount,
         SendEvent.evSleepFrame] ∧
    List.Sublist [SendEvent.evWriteLocalCount, SendEvent.evPublish]
      (send_frames_step encodeOk (SendIterInput.capture (CaptureResult.frame 0 5)) []).2 ∧
    ¬ List.Sublist [SendEvent.evPublish, SendEvent.evWriteLocalCount]
      (send_frames_step encodeOk (SendIterInput.capture (CaptureResult.frame 0 5)) []).2 := by
  refine ⟨rfl, by decide, by decide, by decide⟩

/-- C8 amended: each send-loop iteration with a frame available performs,
in order: capture, people-count read, the `local_num_people` write into
SharedState, encode, and — when encoding succeeds — metadata creation,
publish, and the ~33 ms inter-frame sleep (when encoding fails the
iteration ends with no sleep); an unavailable frame causes the 500 ms
backoff and retry; an exception-class failure causes the ~1 s backoff
without stopping the loop or touching the state. -/
theorem send_loop_iteration_order (enc : ℕ → Option (List ℕ)) (state : TSState)
    (f : ℕ) (count : ℤ) :
    send_frames_step enc (SendIterInput.capture CaptureResult.noFrame) state
      = (state, [SendEvent.evCapture, SendEvent.evSleepHalf]) ∧
    send_frames_step enc SendIterInput.bodyException state
      = (state, [SendEvent.evSleepOneSec]) ∧
    send_frames_step enc (SendIterInput.capture (CaptureResult.frame f count)) state
      = (ThreadSafeState.setitem state "local_num_people" (Value.vInt count),
         match enc f with
         | none => [SendEvent.evCapture, SendEvent.evGetCount,
                    SendEvent.evWriteLocalCount, SendEvent.evEncode]
         | some _ => [SendEvent.evCapture, SendEvent.evGetCount,
                      SendEvent.evWriteLocalCount, SendEvent.evEncode,
                      SendEvent.evCreateMetadata, SendEvent.evPublish,
                      SendEvent.evSleepFrame]) := by
  refine ⟨rfl, rfl, ?_⟩
  simp only [send_frames_step]
  cases enc f <;> rfl

/-! ## C9: SharedState absent-field access -/

/-- C9 counterexample: dictionary-style indexed access on an absent field
raises `KeyError` (the `none` result of the embedded `__getitem__`) —
while `get` with the same absent field returns the supplied default — so
it is not the case that no SharedState access operation errors on an
absent field. -/
theorem getitem_absent_key_counterexample :
    ThreadSafeState.getitem ([("should_run", Value.vBool true)] : TSState) "missing_field"
      = none ∧
    ThreadSafeState.get ([("should_run", Value.vBool true)] : TSState) "missing_field"
      (Value.vInt 7) = Value.vInt 7 :=
  ⟨rfl, rfl⟩

/-- C9 amended: for every field absent from the state mapping, the
`get(field, default)` operation returns the supplied default and never
errors, while dictionary-style indexed access raises `KeyError` on the
absent field. -/
theorem absent_field_access {α : Type} (st : ThreadSafeState α) (key : String)
    (default : α) (h : lookupKV st key = none) :
    ThreadSafeState.get st key default = default ∧
    ThreadSafeState.getitem st key = none := by
  constructor
  · simp [ThreadSafeState.get, h]
  · exact h

/-- Witness for C9 at a one-field state and the absent key
`remote_frame`. -/
theorem absent_field_access_witness :
    ThreadSafeState.get ([("should_run", Value.vBool true)] : TSState) "remote_frame"
      (Value.vInt 3) = Value.vInt 3 ∧
    ThreadSafeState.getitem ([("should_run", Value.vBool true)] : TSState) "remote_frame"
      = none :=
  absent_field_access [("should_run", Value.vBool true)] "remote_frame" (Value.vInt 3)
    (by decide)

/-! ## C10: corrupted metadata on a two-part message -/

/-- C10: a two-part message whose metadata bytes fail to unpack counts as
a successful receive: the consecutive-failure counter is reset to 0 for
every image decoder outcome (so metadata corruption never counts toward
the reconnect threshold); the unpack result is the empty dictionary, so
`remote_num_people` is written with the default 0; and when the image
payload decodes, the atomic four-field update runs and the view switches
to `Remote` (`display_local = False`). -/
theorem metadata_corruption_tolerated (dec dec2 : WirePart → Option ℕ)
    (p fimg : WirePart) (now : ℚ) (s : LoopSt) (fr : ℕ)
    (hp : unpack_metadata p = [])
    (hdec : dec fimg = some fr) :
    (receive_frames_step dec2 (RecvOutcome.msg [p, fimg]) now s).1.consecutive_failures
      = 0 ∧
    (receive_frames_step dec (RecvOutcome.msg [p, fimg]) now s).1.st
      = applyUpdate { frame := fr, count := Value.vInt 0, time := now } s.st ∧
    lookupKV (receive_frames_step dec (RecvOutcome.msg [p, fimg]) now s).1.st
        "remote_num_people" = some (Value.vInt 0) ∧
    lookupKV (receive_frames_step dec (RecvOutcome.msg [p, fimg]) now s).1.st
        "display_local" = some (Value.vBool false) := by
  have hs2 : receive_frames_step dec2 (RecvOutcome.msg [p, fimg]) now s
      = receive_success_branch dec2 p fimg now s :=
    step_eq_success dec2 (RecvOutcome.msg [p, fimg]) now s p fimg rfl
  have hs1 : receive_frames_step dec (RecvOutcome.msg [p, fimg]) now s
      = receive_success_branch dec p fimg now s :=
    step_eq_success dec (RecvOutcome.msg [p, fimg]) now s p fimg rfl
  have hst : (receive_success_branch dec p fimg now s).1.st
      = applyUpdate { frame := fr, count := Value.vInt 0, time := now } s.st := by
    simp only [receive_success_branch, hp, hdec]
    simp [dictGet, lookupKV]
  refine ⟨?_, ?_, ?_, ?_⟩
  · rw [hs2]
    exact success_branch_cf dec2 p fimg now s
  · rw [hs1]
    exact hst
  · rw [hs1, hst]
    exact lookup_applyUpdate_count _ s.st
  · rw [hs1, hst]
    exact lookup_applyUpdate_display _ s.st

/-- Witness for C10: a two-part message whose first part is arbitrary
non-metadata bytes and whose image part decodes to frame 7. -/
theorem metadata_corruption_tolerated_witness :
    (receive_frames_step decNone (RecvOutcome.msg [WirePart.raw 9, WirePart.img [1]]) 0
        exLoopSt).1.consecutive_failures = 0 ∧
    (receive_frames_step decOk (RecvOutcome.msg [WirePart.raw 9, WirePart.img [1]]) 0
        exLoopSt).1.st
      = applyUpdate { frame := 7, count := Value.vInt 0, time := 0 } exLoopSt.st ∧
    lookupKV (receive_frames_step decOk (RecvOutcome.msg [WirePart.raw 9, WirePart.img [1]]) 0
        exLoopSt).1.st "remote_num_people" = some (Value.vInt 0) ∧
    lookupKV (receive_frames_step decOk (RecvOutcome.msg [WirePart.raw 9, WirePart.img [1]]) 0
        exLoopSt).1.st "display_local" = some (Value.vBool false) :=
  metadata_corruption_tolerated decOk decNone (WirePart.raw 9) (WirePart.img [1]) 0
    exLoopSt 7 rfl rfl
